import Mathlib

/-!
Verification of the replication slave failover module declared in
`src/replication/slave.hpp` (class `replication::slave_t`): the
reconnect-rate tracker (`give_up_t`), the exponential backoff timer
(`timeout_`), the serving-mode flag (`respond_to_queries_`) and the two
administrative controls (`failover_reset`, `new_master`).

The repository provides only the header: the numeric policy constants and
all declarations live there, while the method bodies live in a translation
unit that is not part of the source tree.  Every definition whose body is
absent is therefore modelled from the specification's contract for it and
carries a doc comment saying so; the constants are taken directly from the
header.
-/

namespace Replication

/-- From `slave.hpp` line 14: `#define INITIAL_TIMEOUT (100)` — the initial
reconnect wait in milliseconds. -/
def INITIAL_TIMEOUT : Nat := 100

/-- From `slave.hpp` line 17: `#define TIMEOUT_GROWTH_FACTOR 2` — every
failed reconnect multiplies the timeout by this factor. -/
def TIMEOUT_GROWTH_FACTOR : Nat := 2

/-- From `slave.hpp` line 20: `#define TIMEOUT_CAP (1000*60*2)` — the
timeout never surpasses this cap (120000 ms). -/
def TIMEOUT_CAP : Nat := 1000 * 60 * 2

/-- From `slave.hpp` line 25: `#define N_SECONDS (5*60)` — the trailing
window, in seconds, of the give-up policy. -/
def N_SECONDS : Nat := 5 * 60

/-- From `slave.hpp` line 26: `#define MAX_RECONNECTS_PER_N_SECONDS (5)` —
the give-up threshold on reconnects within the window. -/
def MAX_RECONNECTS_PER_N_SECONDS : Nat := 5

/-! ### Reconnect-rate tracker (`give_up_t`)

`give_up_t` holds `std::queue<float> successful_reconnects`; we model the
queue as a list of `Nat` timestamps in seconds, oldest first.  The method
bodies of `on_reconnect`, `give_up`, `reset` and `limit_to` are not in the
source tree, so they are modelled from the specification. -/

/-- A timestamp `t` is within the trailing window at time `now` when it is
not strictly older than `N_SECONDS`; pruning removes entries strictly older
than the window. -/
def within_window (now t : Nat) : Bool := now - t ≤ N_SECONDS

/-- Modelled from the spec: the pruning step of `give_up_t` (body absent
from the source tree) — "pruning removes entries strictly older than the
window on every call". -/
def prune (now : Nat) (q : List Nat) : List Nat :=
  q.filter (fun t => within_window now t)

/-- Modelled from the spec: `give_up_t::limit_to` (body absent from the
source tree) — entries "beyond a configured count limit" are discarded;
the oldest entries are dropped until at most `limit` remain. -/
def limit_to (limit : Nat) (q : List Nat) : List Nat :=
  q.drop (q.length - limit)

/-- Modelled from the spec: `give_up_t::on_reconnect` (body absent from the
source tree) — "records the current time in ReconnectHistory and prunes
entries outside the retention window", keeping at most
`MAX_RECONNECTS_PER_N_SECONDS` entries via `limit_to`. -/
def on_reconnect (now : Nat) (q : List Nat) : List Nat :=
  limit_to MAX_RECONNECTS_PER_N_SECONDS (prune now (q ++ [now]))

/-- The number of retained timestamps within the trailing window. -/
def window_count (now : Nat) (q : List Nat) : Nat :=
  (q.filter (fun t => within_window now t)).length

/-- Modelled from the spec: `give_up_t::give_up` (body absent from the
source tree) — "returns true if the number of retained timestamps within
the last N seconds meets or exceeds a configured maximum". -/
def give_up (now : Nat) (q : List Nat) : Bool :=
  MAX_RECONNECTS_PER_N_SECONDS ≤ window_count now q

/-- Modelled from the spec: `give_up_t::reset` (body absent from the source
tree) — "clears history". -/
def reset_history (_q : List Nat) : List Nat := []

/-- A tracker operation: a successful reconnect at a timestamp, or an
explicit reset (from the administrative reset command). -/
inductive tracker_op where
  | record (now : Nat)
  | clear
deriving DecidableEq

/-- Apply one tracker operation to the history queue. -/
def tracker_step (q : List Nat) : tracker_op → List Nat
  | .record now => on_reconnect now q
  | .clear => reset_history q

/-- Run a sequence of tracker operations from the empty history the
tracker starts with. -/
def tracker_run (ops : List tracker_op) : List Nat :=
  ops.foldl tracker_step []

/-! ### Slave failover state

The failover state of `slave_t`: the serving-mode flag
`respond_to_queries_`, the backoff timer `timeout_`, the give-up history
`give_up_`, the stored `replication_config_` and the connection-episode
state machine described by the specification
(`CONNECTED`, `FAILED_OVER`, `RETRYING`, `GIVEN_UP`). -/

/-- The boolean-like ServingMode: "responding to queries" vs "failed
over". -/
inductive serving_mode where
  | responding_to_queries
  | failed_over
deriving DecidableEq

/-- The connection-episode state machine of the failover controller. -/
inductive conn_state_t where
  | CONNECTED
  | FAILED_OVER
  | RETRYING
  | GIVEN_UP
deriving DecidableEq

/-- The master target stored in `replication_config_t`: host and port. -/
structure replication_config_t where
  host : String
  port : Nat
deriving DecidableEq

/-- Observable side effects of a failover-state transition: invoking the
recovery-script callback (`failover_script_`) on failure or on resume, and
pulsing `pulse_to_interrupt_run_loop_`. -/
inductive run_event where
  | script_failure
  | script_resume
  | interrupt_run_loop
deriving DecidableEq

/-- The failover state of a `slave_t`, with the field names of the
header. -/
structure slave_state where
  respond_to_queries_ : serving_mode
  timeout_ : Nat
  give_up_ : List Nat
  replication_config_ : replication_config_t
  conn_state : conn_state_t
deriving DecidableEq

/-- Modelled from the spec: the state at construction — history empty,
timeout at the initial value, `RETRYING` until the first successful
connection completes. -/
def initial_slave (cfg : replication_config_t) : slave_state :=
  { respond_to_queries_ := .responding_to_queries
    timeout_ := INITIAL_TIMEOUT
    give_up_ := []
    replication_config_ := cfg
    conn_state := .RETRYING }

/-- Modelled from the spec: `slave_t::on_failure` (body absent from the
source tree) — flips ServingMode to "failed over" and invokes the recovery
callback exactly once; it does not touch the backoff timer, the reconnect
history or the stored configuration. -/
def on_failure (s : slave_state) : slave_state × List run_event :=
  ({ s with respond_to_queries_ := .failed_over, conn_state := .FAILED_OVER },
   [.script_failure])

/-- Modelled from the spec: `slave_t::on_resume` (body absent from the
source tree) — flips ServingMode back to "responding to queries", calls the
tracker's `on_reconnect()`, and resets the backoff timer to the initial
value. -/
def on_resume (now : Nat) (s : slave_state) : slave_state × List run_event :=
  ({ s with respond_to_queries_ := .responding_to_queries
            conn_state := .CONNECTED
            give_up_ := on_reconnect now s.give_up_
            timeout_ := INITIAL_TIMEOUT },
   [.script_resume])

/-- Modelled from the spec: the backoff growth applied to `timeout_` on a
failed reconnect attempt — "delay *= growth factor, clamped to the cap". -/
def grow_timeout (t : Nat) : Nat :=
  min (t * TIMEOUT_GROWTH_FACTOR) TIMEOUT_CAP

/-- Modelled from the spec: a failed reconnect attempt of the run loop —
the backoff delay grows and the loop stays in `RETRYING`. -/
def attempt_failed (s : slave_state) : slave_state × List run_event :=
  ({ s with timeout_ := grow_timeout s.timeout_, conn_state := .RETRYING }, [])

/-- Modelled from the spec: the retry decision point of the run loop —
if `give_up()` is true the controller enters the terminal `GIVEN_UP`
state, otherwise it keeps `RETRYING`. -/
def check_give_up (now : Nat) (s : slave_state) : slave_state × List run_event :=
  ({ s with conn_state := if give_up now s.give_up_ then .GIVEN_UP else .RETRYING },
   [])

/-- Modelled from the spec: `slave_t::failover_reset` (body absent from the
source tree) — clears the reconnect history, restores the backoff timer to
its startup value, signals the run loop to interrupt its wait and retry
immediately, and always returns a confirmation string. -/
def failover_reset (s : slave_state) :
    Except String String × slave_state × List run_event :=
  (Except.ok "Failover module was reset.",
   { s with give_up_ := reset_history s.give_up_
            timeout_ := INITIAL_TIMEOUT
            conn_state := .RETRYING },
   [.interrupt_run_loop])

/-- Is this character an ASCII decimal digit? -/
def char_is_digit (c : Char) : Bool := 48 ≤ c.toNat && c.toNat ≤ 57

/-- The numeric value of a list of decimal digit characters. -/
def digits_val (l : List Char) : Nat :=
  l.foldl (fun a c => a * 10 + (c.toNat - 48)) 0

/-- Modelled from the spec: port validation of `new_master` — the port
argument "must parse as a positive integer". -/
def parse_port (str : String) : Option Nat :=
  let l := str.data
  if l.isEmpty then none
  else if l.all char_is_digit then
    if 0 < digits_val l then some (digits_val l) else none
  else none

/-- Modelled from the spec: `slave_t::new_master` (body absent from the
source tree) — validates argument count and port format; on malformed input
returns an error string with no state mutation; on success replaces the
stored `replication_config_` target, signals the run loop to disconnect and
reconnect to the new master, and returns a confirmation string. -/
def new_master (args : List String) (s : slave_state) :
    Except String String × slave_state × List run_event :=
  match args with
  | [host, port_str] =>
    match parse_port port_str with
    | some port =>
      (Except.ok "New master was set.",
       { s with replication_config_ := { host := host, port := port }
                conn_state := .RETRYING },
       [.interrupt_run_loop])
    | none => (Except.error "Port must be a positive integer.", s, [])
  | _ => (Except.error "Usage: new_master host port", s, [])

/-- The connection target the run loop attempts against: the stored
replication configuration's master host and port. -/
def attempt_target (s : slave_state) : String × Nat :=
  (s.replication_config_.host, s.replication_config_.port)

/-- One failover-state transition: the callbacks of the failover module,
the run loop's retry events, and the two administrative commands. -/
inductive slave_op where
  | op_failure
  | op_resume (now : Nat)
  | op_attempt_failed
  | op_check_give_up (now : Nat)
  | op_reset
  | op_new_master (args : List String)
deriving DecidableEq

/-- Apply one transition to the failover state, yielding the new state and
the observable events. -/
def apply_op (s : slave_state) : slave_op → slave_state × List run_event
  | .op_failure => on_failure s
  | .op_resume now => on_resume now s
  | .op_attempt_failed => attempt_failed s
  | .op_check_give_up now => check_give_up now s
  | .op_reset => (failover_reset s).2
  | .op_new_master args => (new_master args s).2

/-- Run a sequence of transitions, concatenating the emitted events. -/
def run_ops : slave_state → List slave_op → slave_state × List run_event
  | s, [] => (s, [])
  | s, op :: rest =>
    ((run_ops (apply_op s op).1 rest).1,
     (apply_op s op).2 ++ (run_ops (apply_op s op).1 rest).2)

/-- Does this transition begin a failure episode? -/
def is_failure_op : slave_op → Bool
  | .op_failure => true
  | _ => false

/-- Is this event an invocation of the recovery callback for a failure? -/
def is_script_failure : run_event → Bool
  | .script_failure => true
  | _ => false

/-- Run a sequence of `on_reconnect` calls from the empty history. -/
def run_reconnects (calls : List Nat) : List Nat :=
  calls.foldl (fun q t => on_reconnect t q) []

/-! ### Helper lemmas -/

lemma mem_of_mem_limit_to {limit : Nat} {q : List Nat} {t : Nat}
    (h : t ∈ limit_to limit q) : t ∈ q :=
  List.mem_of_mem_drop h

lemma length_limit_to (limit : Nat) (q : List Nat) :
    (limit_to limit q).length ≤ limit := by
  simp only [limit_to, List.length_drop]
  omega

lemma length_on_reconnect (now : Nat) (q : List Nat) :
    (on_reconnect now q).length ≤ MAX_RECONNECTS_PER_N_SECONDS :=
  length_limit_to _ _

lemma mem_on_reconnect_within {now t : Nat} {q : List Nat}
    (h : t ∈ on_reconnect now q) : within_window now t = true := by
  have h2 : t ∈ prune now (q ++ [now]) := mem_of_mem_limit_to h
  exact (List.mem_filter.mp h2).2

lemma tracker_foldl_length_le :
    ∀ (ops : List tracker_op) (q : List Nat),
      q.length ≤ MAX_RECONNECTS_PER_N_SECONDS →
      (ops.foldl tracker_step q).length ≤ MAX_RECONNECTS_PER_N_SECONDS := by
  intro ops
  induction ops with
  | nil => intro q h; simpa using h
  | cons op rest ih =>
    intro q h
    cases op with
    | record now =>
      exact ih _ (length_on_reconnect now q)
    | clear =>
      refine ih _ ?_
      simp [tracker_step, reset_history, MAX_RECONNECTS_PER_N_SECONDS]

/-! ### Claim theorems: the reconnect-rate tracker -/

/-- Claim C1: for every sequence of `on_reconnect()` calls and every query
time, `give_up()` returns true if and only if the number of retained
timestamps within the trailing 300-second window is at least the threshold
of 5; in particular at exactly the threshold it returns true (the
comparison is ≥, not >). -/
theorem c1_give_up_iff_threshold (calls : List Nat) (now : Nat) :
    (give_up now (run_reconnects calls) = true ↔
      MAX_RECONNECTS_PER_N_SECONDS ≤ window_count now (run_reconnects calls)) ∧
    (window_count now (run_reconnects calls) = MAX_RECONNECTS_PER_N_SECONDS →
      give_up now (run_reconnects calls) = true) := by
  constructor
  · simp [give_up]
  · intro h
    simp [give_up, h]

/-- Witness for C1 at the boundary: five reconnects at seconds 0..4 leave
exactly five retained timestamps within the window at second 4, and
`give_up` is true there. -/
theorem c1_give_up_iff_threshold_witness :
    give_up 4 (run_reconnects [0, 1, 2, 3, 4]) = true :=
  (c1_give_up_iff_threshold [0, 1, 2, 3, 4] 4).2 (by decide)

/-- Claim C8: every `on_reconnect()` insertion prunes entries outside the
retention window (all retained entries are within the window of the
insertion time), and over any sequence of tracker operations the history
stays bounded by the threshold, so it never grows without bound. -/
theorem c8_history_bounded :
    (∀ (now t : Nat) (q : List Nat),
      t ∈ on_reconnect now q → within_window now t = true) ∧
    (∀ ops : List tracker_op,
      (tracker_run ops).length ≤ MAX_RECONNECTS_PER_N_SECONDS) := by
  constructor
  · intro now t q h
    exact mem_on_reconnect_within h
  · intro ops
    exact tracker_foldl_length_le ops [] (by simp [MAX_RECONNECTS_PER_N_SECONDS])

/-- Witness for C8 at a concrete input: the single timestamp retained after
a reconnect at second 10 on the empty history is within the window. -/
theorem c8_history_bounded_witness :
    within_window 10 10 = true :=
  c8_history_bounded.1 10 10 [] (by decide)

/-- Claim C10: between any two operations the ReconnectHistory holds at
most `MAX_RECONNECTS_PER_N_SECONDS` (5) timestamps — `limit_to` enforces a
hard count limit on each insertion, so the tracker's memory is constant no
matter how many reconnects occur. -/
theorem c10_history_count_limit :
    (∀ ops : List tracker_op,
      (tracker_run ops).length ≤ MAX_RECONNECTS_PER_N_SECONDS) ∧
    (∀ (limit : Nat) (q : List Nat), (limit_to limit q).length ≤ limit) ∧
    (∀ (now : Nat) (q : List Nat),
      on_reconnect now q =
        limit_to MAX_RECONNECTS_PER_N_SECONDS (prune now (q ++ [now]))) := by
  refine ⟨?_, ?_, ?_⟩
  · intro ops
    exact tracker_foldl_length_le ops [] (by simp [MAX_RECONNECTS_PER_N_SECONDS])
  · intro limit q
    exact length_limit_to limit q
  · intro now q
    rfl

/-! ### Helper lemmas: the backoff timer -/

lemma run_ops_append_fst :
    ∀ (l1 l2 : List slave_op) (s : slave_state),
      (run_ops s (l1 ++ l2)).1 = (run_ops (run_ops s l1).1 l2).1 := by
  intro l1
  induction l1 with
  | nil => intro l2 s; simp [run_ops]
  | cons op rest ih => intro l2 s; simp [run_ops, ih]

lemma apply_op_timeout_le (s : slave_state) (op : slave_op)
    (h1 : INITIAL_TIMEOUT ≤ s.timeout_) (h2 : s.timeout_ ≤ TIMEOUT_CAP) :
    INITIAL_TIMEOUT ≤ (apply_op s op).1.timeout_ ∧
      (apply_op s op).1.timeout_ ≤ TIMEOUT_CAP := by
  cases op with
  | op_failure => simpa [apply_op, on_failure] using ⟨h1, h2⟩
  | op_resume now => simp [apply_op, on_resume, INITIAL_TIMEOUT, TIMEOUT_CAP]
  | op_attempt_failed =>
    simp only [apply_op, attempt_failed, grow_timeout,
      TIMEOUT_GROWTH_FACTOR] at *
    simp only [INITIAL_TIMEOUT, TIMEOUT_CAP] at *
    omega
  | op_check_give_up now => simpa [apply_op, check_give_up] using ⟨h1, h2⟩
  | op_reset => simp [apply_op, failover_reset, INITIAL_TIMEOUT, TIMEOUT_CAP]
  | op_new_master args =>
    simp only [apply_op, new_master]
    split
    · split
      · simpa using ⟨h1, h2⟩
      · simpa using ⟨h1, h2⟩
    · simpa using ⟨h1, h2⟩

lemma run_ops_timeout_bounds :
    ∀ (ops : List slave_op) (s : slave_state),
      INITIAL_TIMEOUT ≤ s.timeout_ → s.timeout_ ≤ TIMEOUT_CAP →
      INITIAL_TIMEOUT ≤ (run_ops s ops).1.timeout_ ∧
        (run_ops s ops).1.timeout_ ≤ TIMEOUT_CAP := by
  intro ops
  induction ops with
  | nil => intro s h1 h2; simpa [run_ops] using ⟨h1, h2⟩
  | cons op rest ih =>
    intro s h1 h2
    have h := apply_op_timeout_le s op h1 h2
    simpa [run_ops] using ih _ h.1 h.2

lemma grow_timeout_ge (t : Nat) (h : t ≤ TIMEOUT_CAP) : t ≤ grow_timeout t := by
  simp only [grow_timeout, TIMEOUT_GROWTH_FACTOR, TIMEOUT_CAP] at *
  omega

lemma run_failed_iterate :
    ∀ (n : Nat) (s : slave_state),
      (run_ops s (List.replicate n .op_attempt_failed)).1.timeout_ =
        grow_timeout^[n] s.timeout_ := by
  intro n
  induction n with
  | zero => intro s; simp [run_ops]
  | succ m ih =>
    intro s
    rw [List.replicate_succ]
    show (run_ops (attempt_failed s).1 (List.replicate m .op_attempt_failed)).1.timeout_ = _
    rw [ih, Function.iterate_succ_apply]
    rfl

/-! ### Claim theorem: the backoff timer -/

/-- Claim C2: the backoff delay starts at the initial value (100 ms); every
failed reconnect attempt multiplies it by the growth factor 2 clamped to
the cap 120000 ms, so the delays of three consecutive failed attempts are
100, 200, 400 ms; once the cap is reached a further failure yields exactly
120000 ms, never more; a successful reconnect resets the delay to the
initial value; the delay always lies within [initial, cap] and is
non-decreasing across consecutive failures until a reset. -/
theorem c2_backoff_policy :
    (∀ cfg, (initial_slave cfg).timeout_ = 100) ∧
    (∀ cfg, (run_ops (initial_slave cfg) [.op_attempt_failed]).1.timeout_ = 200) ∧
    (∀ cfg, (run_ops (initial_slave cfg)
        [.op_attempt_failed, .op_attempt_failed]).1.timeout_ = 400) ∧
    (∀ cfg, (run_ops (initial_slave cfg)
        (List.replicate 11 .op_attempt_failed)).1.timeout_ = TIMEOUT_CAP) ∧
    (∀ cfg, (run_ops (initial_slave cfg)
        (List.replicate 12 .op_attempt_failed)).1.timeout_ = TIMEOUT_CAP) ∧
    (∀ t, grow_timeout t ≤ TIMEOUT_CAP) ∧
    (∀ now s, ((on_resume now s).1).timeout_ = INITIAL_TIMEOUT) ∧
    (∀ cfg ops, INITIAL_TIMEOUT ≤ (run_ops (initial_slave cfg) ops).1.timeout_ ∧
        (run_ops (initial_slave cfg) ops).1.timeout_ ≤ TIMEOUT_CAP) ∧
    (∀ cfg ops, (run_ops (initial_slave cfg) ops).1.timeout_ ≤
        (run_ops (initial_slave cfg) (ops ++ [.op_attempt_failed])).1.timeout_) := by
  refine ⟨?_, ?_, ?_, ?_, ?_, ?_, ?_, ?_, ?_⟩
  · intro cfg; rfl
  · intro cfg
    rw [show ([slave_op.op_attempt_failed] : List slave_op) =
          List.replicate 1 .op_attempt_failed from rfl, run_failed_iterate]
    show grow_timeout^[1] INITIAL_TIMEOUT = 200
    decide
  · intro cfg
    rw [show ([slave_op.op_attempt_failed, .op_attempt_failed] : List slave_op) =
          List.replicate 2 .op_attempt_failed from rfl, run_failed_iterate]
    show grow_timeout^[2] INITIAL_TIMEOUT = 400
    decide
  · intro cfg
    rw [run_failed_iterate]
    show grow_timeout^[11] INITIAL_TIMEOUT = TIMEOUT_CAP
    decide
  · intro cfg
    rw [run_failed_iterate]
    show grow_timeout^[12] INITIAL_TIMEOUT = TIMEOUT_CAP
    decide
  · intro t
    simp [grow_timeout]
  · intro now s
    rfl
  · intro cfg ops
    exact run_ops_timeout_bounds ops (initial_slave cfg)
      (show INITIAL_TIMEOUT ≤ INITIAL_TIMEOUT from le_refl _)
      (show INITIAL_TIMEOUT ≤ TIMEOUT_CAP by decide)
  · intro cfg ops
    have hb := run_ops_timeout_bounds ops (initial_slave cfg)
      (show INITIAL_TIMEOUT ≤ INITIAL_TIMEOUT from le_refl _)
      (show INITIAL_TIMEOUT ≤ TIMEOUT_CAP by decide)
    rw [run_ops_append_fst]
    show _ ≤ (run_ops (apply_op _ .op_attempt_failed).1 []).1.timeout_
    simpa [run_ops, apply_op, attempt_failed] using
      grow_timeout_ge _ hb.2

/-! ### Claim theorems: serving mode, administrative commands, recovery
callback -/

/-- Claim C3: the ServingMode flag (`respond_to_queries_`) is written only
through the `on_failure()`/`on_resume()` transitions — it is "failed over"
immediately after any `on_failure()` call, "responding to queries"
immediately after any `on_resume()` call, and every other operation leaves
it unchanged. -/
theorem c3_serving_mode_transitions :
    (∀ s, ((on_failure s).1).respond_to_queries_ = .failed_over) ∧
    (∀ now s, ((on_resume now s).1).respond_to_queries_ =
      .responding_to_queries) ∧
    (∀ s, ((attempt_failed s).1).respond_to_queries_ =
      s.respond_to_queries_) ∧
    (∀ now s, ((check_give_up now s).1).respond_to_queries_ =
      s.respond_to_queries_) ∧
    (∀ s, ((failover_reset s).2.1).respond_to_queries_ =
      s.respond_to_queries_) ∧
    (∀ args s, ((new_master args s).2.1).respond_to_queries_ =
      s.respond_to_queries_) := by
  refine ⟨fun s => rfl, fun now s => rfl, fun s => rfl, fun now s => rfl,
    fun s => rfl, fun args s => ?_⟩
  simp only [new_master]
  split
  · split <;> rfl
  · rfl

/-- Claim C4: for every malformed argument list to `new_master` (wrong
argument count, or a port that does not parse as a positive integer) the
call returns an error string, mutates no state (the stored
`replication_config_` keeps its previous master target), and signals
nothing. -/
theorem c4_new_master_malformed :
    (∀ (args : List String) (s : slave_state), args.length ≠ 2 →
      (new_master args s).1.isOk = false ∧ (new_master args s).2.1 = s ∧
        (new_master args s).2.2 = []) ∧
    (∀ (host port_str : String) (s : slave_state),
      parse_port port_str = none →
      (new_master [host, port_str] s).1.isOk = false ∧
        (new_master [host, port_str] s).2.1 = s ∧
        (new_master [host, port_str] s).2.2 = []) := by
  constructor
  · intro args s h
    match args with
    | [] => exact ⟨rfl, rfl, rfl⟩
    | [a] => exact ⟨rfl, rfl, rfl⟩
    | [a, b] => exact absurd rfl h
    | a :: b :: c :: rest => exact ⟨rfl, rfl, rfl⟩
  · intro host port_str s h
    simp [new_master, h, Except.isOk, Except.toBool]

/-- Witness for C4: `new_master ["host", "not_a_port"]` errors out and
leaves the state of a freshly constructed slave unchanged. -/
theorem c4_new_master_malformed_witness :
    (new_master ["host", "not_a_port"]
        (initial_slave { host := "master", port := 11211 })).1.isOk = false ∧
      (new_master ["host", "not_a_port"]
        (initial_slave { host := "master", port := 11211 })).2.1 =
        initial_slave { host := "master", port := 11211 } ∧
      (new_master ["host", "not_a_port"]
        (initial_slave { host := "master", port := 11211 })).2.2 = [] :=
  c4_new_master_malformed.2 "host" "not_a_port"
    (initial_slave { host := "master", port := 11211 }) (by decide)

/-- Claim C5: `failover_reset` always succeeds with a confirmation string
and clears the ReconnectHistory; invoked in the `GIVEN_UP` state it moves
the state machine to `RETRYING`, with the backoff timer back at the initial
delay and the run loop signalled to issue a reconnect attempt. -/
theorem c5_failover_reset (s : slave_state) :
    (failover_reset s).1.isOk = true ∧
    ((failover_reset s).2.1).give_up_ = [] ∧
    (s.conn_state = .GIVEN_UP →
      ((failover_reset s).2.1).conn_state = .RETRYING ∧
      ((failover_reset s).2.1).timeout_ = INITIAL_TIMEOUT ∧
      run_event.interrupt_run_loop ∈ (failover_reset s).2.2) := by
  refine ⟨rfl, rfl, fun _ => ⟨rfl, rfl, ?_⟩⟩
  simp [failover_reset]

/-- Witness for C5: resetting a slave that has given up on the master
restarts retrying at the initial delay with the run loop signalled. -/
theorem c5_failover_reset_witness :
    ((failover_reset { initial_slave { host := "master", port := 11211 } with
        conn_state := .GIVEN_UP }).2.1).conn_state = .RETRYING ∧
      ((failover_reset { initial_slave { host := "master", port := 11211 } with
        conn_state := .GIVEN_UP }).2.1).timeout_ = INITIAL_TIMEOUT ∧
      run_event.interrupt_run_loop ∈
        (failover_reset { initial_slave { host := "master", port := 11211 } with
          conn_state := .GIVEN_UP }).2.2 :=
  (c5_failover_reset { initial_slave { host := "master", port := 11211 } with
    conn_state := .GIVEN_UP }).2.2 rfl

/-- Claim C6: for every well-formed argument list (host, parsable positive
port), `new_master` returns a confirmation, replaces the stored
`replication_config_` master target with the new host and port, and makes
the run loop tear down its connection and attempt a reconnect against the
new target. -/
theorem c6_new_master_wellformed (host port_str : String) (port : Nat)
    (s : slave_state) (h : parse_port port_str = some port) :
    (new_master [host, port_str] s).1.isOk = true ∧
    ((new_master [host, port_str] s).2.1).replication_config_ =
      { host := host, port := port } ∧
    ((new_master [host, port_str] s).2.1).conn_state = .RETRYING ∧
    run_event.interrupt_run_loop ∈ (new_master [host, port_str] s).2.2 ∧
    attempt_target ((new_master [host, port_str] s).2.1) = (host, port) := by
  simp [new_master, h, attempt_target, Except.isOk, Except.toBool]

/-- Witness for C6: `new_master ["10.0.0.5", "6379"]` succeeds and
retargets replication at 10.0.0.5:6379. -/
theorem c6_new_master_wellformed_witness :
    (new_master ["10.0.0.5", "6379"]
        (initial_slave { host := "master", port := 11211 })).1.isOk = true ∧
      ((new_master ["10.0.0.5", "6379"]
        (initial_slave { host := "master", port := 11211 })).2.1).replication_config_ =
        { host := "10.0.0.5", port := 6379 } ∧
      ((new_master ["10.0.0.5", "6379"]
        (initial_slave { host := "master", port := 11211 })).2.1).conn_state =
        .RETRYING ∧
      run_event.interrupt_run_loop ∈
        (new_master ["10.0.0.5", "6379"]
          (initial_slave { host := "master", port := 11211 })).2.2 ∧
      attempt_target ((new_master ["10.0.0.5", "6379"]
        (initial_slave { host := "master", port := 11211 })).2.1) =
        ("10.0.0.5", 6379) :=
  c6_new_master_wellformed "10.0.0.5" "6379" 6379
    (initial_slave { host := "master", port := 11211 }) (by decide)

/-- Claim C7: every `on_failure()` call flips ServingMode to "failed over"
and invokes the recovery callback exactly once; over any run of
transitions, the recovery callback's failure hook fires exactly once per
failure episode — never zero times and never more than once. -/
theorem c7_failure_script_exactly_once :
    (∀ s, ((on_failure s).2).countP is_script_failure = 1 ∧
      ((on_failure s).1).respond_to_queries_ = .failed_over) ∧
    (∀ (s : slave_state) (ops : List slave_op),
      ((run_ops s ops).2).countP is_script_failure =
        ops.countP is_failure_op) := by
  constructor
  · intro s
    exact ⟨rfl, rfl⟩
  · intro s ops
    induction ops generalizing s with
    | nil => rfl
    | cons op rest ih =>
      show ((apply_op s op).2 ++ _).countP _ = _
      rw [List.countP_append, ih, List.countP_cons]
      cases op with
      | op_failure =>
        simp [apply_op, on_failure, is_failure_op, is_script_failure]
        omega
      | op_resume now =>
        simp [apply_op, on_resume, is_failure_op, is_script_failure]
      | op_attempt_failed =>
        simp [apply_op, attempt_failed, is_failure_op, is_script_failure]
      | op_check_give_up now =>
        simp [apply_op, check_give_up, is_failure_op, is_script_failure]
      | op_reset =>
        simp [apply_op, failover_reset, is_failure_op, is_script_failure]
      | op_new_master args =>
        simp only [apply_op, new_master]
        split
        · split <;> simp [is_failure_op, is_script_failure]
        · simp [is_failure_op, is_script_failure]

end Replication
